import Mathlib

/-!
Verification of `src/health_analysis_tw.py` (williammontik/health-analysis-tw).

This file shallowly embeds the pure, decidable core of the program:
the Python string primitives it relies on (`str.strip`, `str.split`,
`str.replace`, `int(...)`), the metrics text scanner inside
`generate_metrics_with_ai`, `compute_age`, the error-handling wrappers
`get_openai_response` and `send_email_report` (with the external calls
abstracted as their outcome values), the locale gate at the top of the
`health_analyze` handler, the courtesy-phrase stripping step, and the two
summary-paragraph HTML assemblies.

External effects (the OpenAI completion call, the SMTP session, `dateutil`
date parsing) are modelled as explicit outcome parameters (`Except`/`Option`
values): the branch structure around them is taken verbatim from the source.
Whitespace is modelled as the ASCII whitespace set; `int(...)` is modelled as
an optional sign followed by decimal digits (the common CPython case); all
concrete inputs in the theorems below stay inside that fragment.
-/

namespace HealthAnalysisTw

/-! ### Python string primitives -/

/-- ASCII whitespace, as recognised by Python `str.strip` and regex class
matching on the inputs considered here. -/
def isPyWs (c : Char) : Bool :=
  c = ' ' || c = '\t' || c = '\n' || c = '\r' || c = '\x0b' || c = '\x0c'

/-- Drop leading whitespace characters. -/
def dropWs : List Char → List Char
  | [] => []
  | c :: rest => if isPyWs c then dropWs rest else c :: rest

/-- Python `str.strip()` on a character list: drop leading and trailing
whitespace. -/
def pyStripCs (cs : List Char) : List Char :=
  (dropWs ((dropWs cs).reverse)).reverse

/-- Python `str.strip()`. -/
def pyStrip (s : String) : String :=
  String.mk (pyStripCs s.data)

/-- Python `str.split("\n")`: cut at every newline, keeping empty pieces. -/
def splitNlCs : List Char → List (List Char)
  | [] => [[]]
  | '\n' :: rest => [] :: splitNlCs rest
  | c :: rest =>
    match splitNlCs rest with
    | [] => [[c]]
    | l :: ls => (c :: l) :: ls

/-- Fuel-driven worker for Python `str.split(sep)` with a non-empty
separator: leftmost, non-overlapping occurrences. -/
def splitSepFuel (sep : List Char) : Nat → List Char → List Char → List (List Char)
  | 0, cs, acc => [acc.reverse ++ cs]
  | Nat.succ n, cs, acc =>
    match cs with
    | [] => [acc.reverse]
    | c :: rest =>
      if sep.isPrefixOf (c :: rest) then
        acc.reverse :: splitSepFuel sep n (List.drop sep.length (c :: rest)) []
      else
        splitSepFuel sep n rest (c :: acc)

/-- Python `s.split(sep)` for a non-empty separator. -/
def pySplit (sep s : String) : List String :=
  (splitSepFuel sep.data (s.data.length + 1) s.data []).map String.mk

/-- Digit run to a number: `some` iff the run is non-empty and all decimal
digits. -/
def digitsToNat (cs : List Char) : Option Nat :=
  if !cs.isEmpty && cs.all Char.isDigit then
    some (cs.foldl (fun acc c => 10 * acc + (c.toNat - 48)) 0)
  else
    none

/-- Python `int(s)` on a string: strips surrounding whitespace, then an
optional sign followed by decimal digits; `none` models `ValueError`. -/
def pyIntCs (cs : List Char) : Option Int :=
  match dropWs ((dropWs cs.reverse).reverse) with
  | '+' :: rest => (digitsToNat rest).map Int.ofNat
  | '-' :: rest => (digitsToNat rest).map (fun n => -(Int.ofNat n))
  | t => (digitsToNat t).map Int.ofNat

/-- Python `str.lower()` (ASCII model). -/
def pyLower (s : String) : String :=
  String.mk (s.data.map Char.toLower)

/-! ### Metrics text scanner (`generate_metrics_with_ai`, lines 115-134) -/

/-- One parsed metrics block: `{"title": ..., "labels": [...], "values": [...]}`. -/
structure MetricGroup where
  title : String
  labels : List String
  values : List Int
deriving Repr, DecidableEq

/-- The loop state of the scanner: the flushed groups plus the open group
(`current_title`, `labels`, `values`). -/
structure ScanState where
  metrics : List MetricGroup
  title : String
  labels : List String
  values : List Int
deriving Repr, DecidableEq

/-- Flush the open group: appended only when `current_title` is truthy
(non-empty). -/
def flushGroup (st : ScanState) : List MetricGroup :=
  if st.title ≠ "" then
    st.metrics ++ [{ title := st.title, labels := st.labels, values := st.values }]
  else
    st.metrics

/-- `line.startswith("###")`. -/
def startsHash3 : List Char → Bool
  | '#' :: '#' :: '#' :: _ => true
  | _ => false

/-- `line.replace("###", "")`: remove every (leftmost, non-overlapping)
occurrence of three hashes. -/
def stripHashes : List Char → List Char
  | '#' :: '#' :: '#' :: rest => stripHashes rest
  | c :: rest => c :: stripHashes rest
  | [] => []

/-- `line.split(":", 1)` when `":" in line`: the part before the first colon
and the part after it. -/
def splitFirstColon : List Char → Option (List Char × List Char)
  | [] => none
  | ':' :: rest => some ([], rest)
  | c :: rest => (splitFirstColon rest).map (fun p => (c :: p.1, p.2))

/-- `int(val.strip().replace("%", ""))`, with `none` for `ValueError`. -/
def valToIntOpt (val : List Char) : Option Int :=
  pyIntCs ((pyStripCs val).filter (fun c => c ≠ '%'))

/-- One iteration of the scanner loop, verbatim from the source: a `###`
line flushes and opens a new group; otherwise a line with a colon appends
the stripped label first, and appends the parsed value only if
`int(...)` does not raise (`except ValueError: continue`). -/
def processLine (st : ScanState) (cs : List Char) : ScanState :=
  if startsHash3 cs then
    { metrics := flushGroup st
      title := String.mk (pyStripCs (stripHashes cs))
      labels := []
      values := [] }
  else
    match splitFirstColon cs with
    | some p =>
      let labels' := st.labels ++ [String.mk (pyStripCs p.1)]
      match valToIntOpt p.2 with
      | some v => { st with labels := labels', values := st.values ++ [v] }
      | none => { st with labels := labels' }
    | none => st

/-- The scan of `content.strip().split("\n")` followed by the final flush:
the value of `metrics` just before the `or` fallback. -/
def scanMetrics (content : String) : List MetricGroup :=
  flushGroup ((splitNlCs (pyStripCs content.data)).foldl processLine
    { metrics := [], title := "", labels := [], values := [] })

/-- The fixed default group substituted for an empty result or a failed
AI call. -/
def defaultMetrics : List MetricGroup :=
  [{ title := "預設指標", labels := ["指標A", "指標B"], values := [50, 75] }]

/-- `generate_metrics_with_ai`: the AI call is abstracted as its outcome
(`some reply` when the completion returns text, `none` when it raises and
the `except` branch runs); `metrics or [default]` maps an empty scan to the
default group. -/
def generate_metrics_with_ai (aiReply : Option String) : List MetricGroup :=
  match aiReply with
  | none => defaultMetrics
  | some content =>
    match scanMetrics content with
    | [] => defaultMetrics
    | ms => ms

/-! ### `compute_age` (lines 45-51) -/

/-- The Python tuple comparison `(today.month, today.day) < (dt.month, dt.day)`
(lexicographic). -/
def monthDayBefore (tm td m d : Nat) : Bool :=
  decide (tm < m) || (decide (tm = m) && decide (td < d))

/-- `compute_age`: `dateutil.parser.parse(dob)` is abstracted as its outcome
(`some (year, month, day)` on success, `none` when it raises and the bare
`except` returns 0); `datetime.today()` is passed explicitly. The boolean
tuple comparison is subtracted as 0 or 1, as Python coerces it. -/
def compute_age (parsed : Option (Nat × Nat × Nat)) (todayY todayM todayD : Nat) : Int :=
  match parsed with
  | none => 0
  | some (y, m, d) =>
    (todayY : Int) - (y : Int) - (if monthDayBefore todayM todayD m d then 1 else 0)

/-! ### `get_openai_response` (lines 90-100) -/

/-- The fixed fallback reply returned when the completion call raises. -/
def fallback_text : String := "⚠️ 無法生成回應。"

/-- `get_openai_response`: the `client.chat.completions.create` call is
abstracted as its outcome (`Except.ok reply` for a returned message text,
`Except.error e` when it raises); the `except` branch logs and returns the
fixed fallback string. The prompt and temperature only parameterize the
external call and do not influence this branch structure. -/
def get_openai_response (completion : Except String String) : String :=
  match completion with
  | Except.ok reply => reply
  | Except.error _ => fallback_text

/-! ### `send_email_report` (lines 197-214) -/

/-- Observable outcome of `send_email_report`: the guard returned early
(`skipped`), the SMTP sequence succeeded (`sent`), or it raised and the
`except` branch logged the failure (`failedLogged`). There is no constructor
for a propagated exception: the function never raises. -/
inductive EmailOutcome where
  | skipped
  | sent
  | failedLogged
deriving Repr, DecidableEq

/-- `send_email_report`: `all([SMTP_SERVER, SMTP_USERNAME, SMTP_PASSWORD])`
is Python truthiness of the three strings (empty/missing is falsy); the
connect/starttls/login/sendmail sequence is abstracted as its outcome
`transport`, consulted only when the guard passes. -/
def send_email_report (server username password : String)
    (transport : Except String Unit) : EmailOutcome :=
  if server = "" ∨ username = "" ∨ password = "" then
    EmailOutcome.skipped
  else
    match transport with
    | Except.ok _ => EmailOutcome.sent
    | Except.error _ => EmailOutcome.failedLogged

/-! ### Locale gate of `health_analyze` (lines 220-223) -/

/-- The 400 error body text for an unsupported locale. -/
def unsupported_locale_message : String := "此端點僅支援台灣繁體中文 (tw)。"

/-- Result of the locale check at the top of the handler: `rejected` models
the early `return jsonify({"error": ...}), 400` taken before any pipeline
step runs; `proceed` carries the normalized `lang` the rest of the handler
uses. -/
inductive HandlerStep where
  | rejected (status : Nat) (errorMessage : String)
  | proceed (lang : String)
deriving Repr, DecidableEq

/-- `data.get("lang", "tw").strip().lower()` followed by the `!= "tw"`
check; `langField` is the optional `lang` value of the JSON body. -/
def localeGate (langField : Option String) : HandlerStep :=
  let lang := pyLower (pyStrip (langField.getD "tw"))
  if lang = "tw" then HandlerStep.proceed lang
  else HandlerStep.rejected 400 unsupported_locale_message

/-! ### Courtesy-phrase stripping (line 256) -/

/-- Matcher for the tail of `^\s*當然可以[！!]\s*` after the leading
whitespace has been dropped: on the four phrase characters followed by a
full-width or ASCII exclamation mark, return the remainder with its leading
whitespace dropped. -/
def courtesyTail : List Char → Option (List Char)
  | '當' :: '然' :: '可' :: '以' :: c :: rest =>
    if c = '！' || c = '!' then some (dropWs rest) else none
  | _ => none

/-- `re.sub(r"^\s*當然可以[！!]\s*", "", creative)`: the anchored leftmost
match (if any) is removed, otherwise the string is unchanged. Dropping the
maximal leading whitespace is equivalent to the regex `\s*` here because the
next required character is not whitespace. -/
def strip_courtesy (s : String) : String :=
  match courtesyTail (dropWs s.data) with
  | some rest => String.mk rest
  | none => s

/-- Whether the anchored courtesy regex matches at the start of `s`. -/
def begins_courtesy (s : String) : Bool :=
  (courtesyTail (dropWs s.data)).isSome

/-! ### Summary paragraph assemblies (lines 269 and 288-291) -/

/-- The summary section of the emailed report body: paragraphs from
`summary.strip().split('  ')` (double space), blank pieces filtered out,
each stripped and wrapped (line 269). -/
def email_summary_html (summary : String) : String :=
  String.join (((pySplit "  " (pyStrip summary)).filter
      (fun p => pyStrip p != "")).map
    (fun p => "<p style=\x27line-height:1.7; font-size:16px;\x27>" ++ pyStrip p ++ "</p>"))

/-- The summary section of the JSON `html_result`: paragraphs from
`summary.strip().split('\n\n')` (blank line), blank pieces filtered out,
each stripped and wrapped (lines 288-291). -/
def web_summary_html (summary : String) : String :=
  String.join (((pySplit "\n\n" (pyStrip summary)).filter
      (fun p => pyStrip p != "")).map
    (fun p =>
      "<p style=\x27line-height:1.7; font-size:16px; margin-top:1em; margin-bottom:1em;\x27>"
        ++ pyStrip p ++ "</p>"))

/-- Modelled from the spec: the paragraph list obtained by splitting the
stripped summary on a given separator, discarding blank pieces and stripping
the rest. Used to state which separator each assembly uses. -/
def summaryParagraphs (sep summary : String) : List String :=
  ((pySplit sep (pyStrip summary)).filter (fun p => pyStrip p != "")).map pyStrip

/-! ### Helper lemmas -/

/-- A non-heading, non-colon-free line only touches the open labels/values:
`metrics` and `title` are unchanged. -/
theorem processLine_keeps_metrics_title (st : ScanState) (l : List Char)
    (h : startsHash3 l = false) :
    (processLine st l).metrics = st.metrics ∧ (processLine st l).title = st.title := by
  unfold processLine
  rw [h]
  simp only [Bool.false_eq_true, if_false]
  refine ⟨?_, ?_⟩ <;>
    (split <;> first | rfl | (split <;> rfl))

/-- Folding the scanner over heading-free lines leaves `metrics` empty and
`title` blank. -/
theorem scan_heading_free (lines : List (List Char)) :
    ∀ st : ScanState, lines.all (fun l => !startsHash3 l) = true →
      st.metrics = [] → st.title = "" →
      (lines.foldl processLine st).metrics = [] ∧
      (lines.foldl processLine st).title = "" := by
  induction lines with
  | nil => exact fun st _ hm ht => ⟨hm, ht⟩
  | cons l t ih =>
    intro st hall hm ht
    rw [List.all_cons, Bool.and_eq_true] at hall
    have hl : startsHash3 l = false := by
      have := hall.1
      cases hh : startsHash3 l with
      | false => rfl
      | true => rw [hh] at this; simp at this
    have hkeep := processLine_keeps_metrics_title st l hl
    exact ih (processLine st l) hall.2 (hkeep.1.trans hm) (hkeep.2.trans ht)

/-- When the whole state is title-blank, the final flush produces the
accumulated list unchanged. -/
theorem flushGroup_blank_title (st : ScanState) (ht : st.title = "") :
    flushGroup st = st.metrics := by
  unfold flushGroup
  rw [if_neg]
  intro hne
  exact hne ht

/-- Dropping whitespace skips over an all-whitespace block. -/
theorem dropWs_append_of_all (a b : List Char) (h : a.all isPyWs = true) :
    dropWs (a ++ b) = dropWs b := by
  induction a with
  | nil => rfl
  | cons c t ih =>
    rw [List.all_cons, Bool.and_eq_true] at h
    rw [List.cons_append]
    have hstep : dropWs (c :: (t ++ b)) = dropWs (t ++ b) := by
      show (if isPyWs c then dropWs (t ++ b) else c :: (t ++ b)) = dropWs (t ++ b)
      rw [h.1]
      simp
    rw [hstep]
    exact ih h.2

/-- Character data of a concatenation. -/
theorem strData_append (s t : String) : (s ++ t).data = s.data ++ t.data := by
  cases s
  cases t
  rfl

/-! ### Claim theorems -/

/-- C1: the source claims every produced MetricGroup has labels and values
of equal length even when a line's value segment fails integer parsing.
The code appends `label.strip()` to `labels` before `int(...)` can raise,
so on the input below the single produced group has 2 labels but 1 value:
the invariant is violated. -/
theorem metric_group_length_mismatch :
    (generate_metrics_with_ai (some "### 體能\n活力: 65%\n耐力: bar")).map
        (fun g => (g.labels.length, g.values.length)) = [(2, 1)] := by
  decide

/-- C2: the claim says a line whose value segment fails integer parsing is
dropped (while the group and later lines are still processed). On the input
below the scan does continue through the malformed line `品質: abc` and the
later line `時長: 70%` without aborting, but the malformed line is not
dropped: its stripped label `品質` stays in the group, so the result differs
from the parse of the same text with that line absent. -/
theorem malformed_value_line_scan_eval :
    generate_metrics_with_ai (some "### 睡眠\n品質: abc\n時長: 70%") =
        [{ title := "睡眠", labels := ["品質", "時長"], values := [70] }] ∧
      generate_metrics_with_ai (some "### 睡眠\n品質: abc\n時長: 70%") ≠
        generate_metrics_with_ai (some "### 睡眠\n時長: 70%") := by
  constructor
  · decide
  · decide

/-- C4: for a parseable date of birth, `compute_age` returns the current
year minus the birth year, minus 1 exactly when today's (month, day)
lexicographically precedes the birth (month, day) and minus 0 otherwise;
for an unparseable date it returns 0 (the bare `except` branch). -/
theorem compute_age_spec (y m d ty tm td : Nat) :
    compute_age (some (y, m, d)) ty tm td =
        (ty : Int) - (y : Int) -
          (if tm < m ∨ (tm = m ∧ td < d) then 1 else 0) ∧
      compute_age none ty tm td = 0 := by
  constructor
  · unfold compute_age monthDayBefore
    by_cases h : tm < m ∨ (tm = m ∧ td < d)
    · rw [if_pos h]
      rcases h with h1 | ⟨h2, h3⟩
      · simp [h1]
      · simp [h2, h3]
    · rw [if_neg h]
      push_neg at h
      have h1 : decide (tm < m) = false := by simp [h.1]
      by_cases h2 : tm = m
      · have h3 : decide (td < d) = false := by simp [h.2 h2]
        simp [h1, h3]
      · have h3 : decide (tm = m) = false := by simp [h2]
        simp [h1, h3]
  · rfl

/-- C5: whenever the completion call raises, `get_openai_response` returns
the fixed fallback string `⚠️ 無法生成回應。`; a returned reply is passed
through unchanged, and no exception ever propagates (the function is total
over both outcomes). -/
theorem get_openai_response_fallback (e reply : String) :
    get_openai_response (Except.error e) = fallback_text ∧
      get_openai_response (Except.ok reply) = reply :=
  ⟨rfl, rfl⟩

/-- C6: with any of the three SMTP configuration values empty,
`send_email_report` skips delivery without consulting the transport at all
(the outcome is `skipped` and is independent of the transport value); and
a raising transport sequence is always swallowed: the outcome is `skipped`
or `failedLogged`, never a propagated exception. -/
theorem send_email_report_guard (server username password : String)
    (t tAlt : Except String Unit) (e : String) :
    ((server = "" ∨ username = "" ∨ password = "") →
        send_email_report server username password t = EmailOutcome.skipped ∧
        send_email_report server username password t =
          send_email_report server username password tAlt) ∧
      (send_email_report server username password (Except.error e) =
          EmailOutcome.skipped ∨
        send_email_report server username password (Except.error e) =
          EmailOutcome.failedLogged) := by
  constructor
  · intro h
    unfold send_email_report
    rw [if_pos h, if_pos h]
    exact ⟨rfl, rfl⟩
  · unfold send_email_report
    by_cases h : server = "" ∨ username = "" ∨ password = ""
    · rw [if_pos h]
      exact Or.inl rfl
    · rw [if_neg h]
      exact Or.inr rfl

/-- C6 witness: with an empty server string the guard skips regardless of
the transport outcome. -/
theorem send_email_report_guard_witness :
    send_email_report "" "kata.chatbot@gmail.com" "pw" (Except.ok ()) =
      EmailOutcome.skipped :=
  ((send_email_report_guard "" "kata.chatbot@gmail.com" "pw"
    (Except.ok ()) (Except.error "boom") "boom").1 (Or.inl rfl)).1

/-- C7: an absent `lang` field defaults to `tw` and the handler proceeds
exactly as if `tw` had been sent; `lang = "en"` is rejected with status 400
and the localized unsupported-locale message, before any pipeline step
(the `rejected` outcome carries no pipeline result). -/
theorem locale_default_and_reject :
    localeGate none = HandlerStep.proceed "tw" ∧
      localeGate none = localeGate (some "tw") ∧
      localeGate (some "en") =
        HandlerStep.rejected 400 unsupported_locale_message := by
  refine ⟨by decide, by decide, by decide⟩

/-- C10: the `lang` value is stripped and lowercased before the check, so
the gate proceeds exactly when the normalized value is `tw`; in particular
`TW`, ` tw ` and `Tw` are accepted, not rejected with 400. -/
theorem locale_normalization (s : String) :
    (localeGate (some s) = HandlerStep.proceed "tw" ↔
        pyLower (pyStrip s) = "tw") ∧
      localeGate (some "TW") = HandlerStep.proceed "tw" ∧
      localeGate (some " tw ") = HandlerStep.proceed "tw" ∧
      localeGate (some "Tw") = HandlerStep.proceed "tw" := by
  refine ⟨?_, by decide, by decide, by decide⟩
  unfold localeGate
  simp only [Option.getD]
  by_cases h : pyLower (pyStrip s) = "tw"
  · rw [if_pos h, h]
    simp [h]
  · rw [if_neg h]
    simp [h]

/-- C3: whenever the scan yields zero groups, `generate_metrics_with_ai`
returns exactly the fixed default group; in particular it does so on any
text none of whose lines starts with `###` (shown via the heading-free scan
invariant) and on the AI fallback text, and the `except` branch of a failed
AI call returns the same fixed group. -/
theorem default_metrics_on_empty_scan (content : String) :
    (scanMetrics content = [] →
        generate_metrics_with_ai (some content) = defaultMetrics) ∧
      ((splitNlCs (pyStripCs content.data)).all (fun l => !startsHash3 l) = true →
        generate_metrics_with_ai (some content) = defaultMetrics) ∧
      generate_metrics_with_ai none = defaultMetrics ∧
      generate_metrics_with_ai (some fallback_text) = defaultMetrics := by
  have hmain : scanMetrics content = [] →
      generate_metrics_with_ai (some content) = defaultMetrics := by
    intro h
    show (match scanMetrics content with
          | [] => defaultMetrics
          | ms => ms) = defaultMetrics
    rw [h]
  refine ⟨hmain, ?_, rfl, by decide⟩
  intro h
  apply hmain
  unfold scanMetrics
  have hfold := scan_heading_free (splitNlCs (pyStripCs content.data))
    { metrics := [], title := "", labels := [], values := [] } h rfl rfl
  rw [flushGroup_blank_title _ hfold.2]
  exact hfold.1

/-- C3 witness: a heading-free text produces the default group. -/
theorem default_metrics_on_empty_scan_witness :
    generate_metrics_with_ai (some "你好") = defaultMetrics :=
  (default_metrics_on_empty_scan "你好").1 (by decide)

/-- C8: in one request the emailed report and the JSON `html_result` build
their summary sections from the same summary by two different rules: the
email assembly splits on a double space, the web assembly on a blank line;
on a summary containing both separators the two paragraph lists differ, so
the rules are genuinely distinct. -/
theorem summary_split_rules :
    (∀ s : String, email_summary_html s =
        String.join ((summaryParagraphs "  " s).map
          (fun p => "<p style=\x27line-height:1.7; font-size:16px;\x27>" ++ p ++ "</p>"))) ∧
      (∀ s : String, web_summary_html s =
        String.join ((summaryParagraphs "\n\n" s).map
          (fun p =>
            "<p style=\x27line-height:1.7; font-size:16px; margin-top:1em; margin-bottom:1em;\x27>"
              ++ p ++ "</p>"))) ∧
      summaryParagraphs "  " "甲  乙\n\n丙" ≠ summaryParagraphs "\n\n" "甲  乙\n\n丙" := by
  refine ⟨?_, ?_, by decide⟩
  · intro s
    unfold email_summary_html summaryParagraphs
    rw [List.map_map]
    rfl
  · intro s
    unfold web_summary_html summaryParagraphs
    rw [List.map_map]
    rfl

/-- C9 counterexample: the claim says a reply not beginning with the exact
phrase is left unchanged, but the regex is `^\s*當然可以[！!]\s*`: the reply
below starts with a space, so it does not begin with the phrase, yet the
post-processing still strips the whitespace-surrounded phrase. -/
theorem strip_courtesy_strict_counterexample :
    strip_courtesy " 當然可以！你好" ≠ " 當然可以！你好" ∧
      List.isPrefixOf "當然可以！".data " 當然可以！你好".data = false ∧
      List.isPrefixOf "當然可以!".data " 當然可以！你好".data = false ∧
      strip_courtesy " 當然可以！你好" = "你好" := by
  decide

/-- C9 amended: the post-processing removes one leading match of optional
whitespace, then `當然可以` followed by `！` or `!`, then optional
whitespace (so surrounding whitespace is stripped along with the phrase);
a reply with no such leading match is returned unchanged. -/
theorem strip_courtesy_regex_behavior (ws rest s : String) :
    (ws.data.all isPyWs = true →
        strip_courtesy (ws ++ ("當然可以！" ++ rest)) = String.mk (dropWs rest.data) ∧
        strip_courtesy (ws ++ ("當然可以!" ++ rest)) = String.mk (dropWs rest.data)) ∧
      (begins_courtesy s = false → strip_courtesy s = s) := by
  constructor
  · intro hws
    constructor
    · have hdata : (ws ++ ("當然可以！" ++ rest)).data =
          ws.data ++ "當然可以！".data ++ rest.data := by
        rw [strData_append, strData_append, List.append_assoc]
      unfold strip_courtesy
      rw [hdata, List.append_assoc, dropWs_append_of_all _ _ hws]
      rfl
    · have hdata : (ws ++ ("當然可以!" ++ rest)).data =
          ws.data ++ "當然可以!".data ++ rest.data := by
        rw [strData_append, strData_append, List.append_assoc]
      unfold strip_courtesy
      rw [hdata, List.append_assoc, dropWs_append_of_all _ _ hws]
      rfl
  · intro h
    unfold begins_courtesy at h
    unfold strip_courtesy
    cases hct : courtesyTail (dropWs s.data) with
    | none => rfl
    | some r =>
      rw [hct] at h
      simp at h

/-- C9 amended witness: a whitespace-led courtesy phrase is stripped along
with the whitespace after it, and a reply without the phrase is unchanged. -/
theorem strip_courtesy_regex_behavior_witness :
    strip_courtesy (" " ++ ("當然可以！" ++ " 你好")) = "你好" ∧
      strip_courtesy "謝謝" = "謝謝" := by
  constructor
  · have h := ((strip_courtesy_regex_behavior " " " 你好" "謝謝").1 (by decide)).1
    rw [h]
    decide
  · exact (strip_courtesy_regex_behavior " " " 你好" "謝謝").2 (by decide)

end HealthAnalysisTw
